import Mathlib

/-!
Verification of the stetl repository fragments: the ETL driver
(src/setl/etl.py), the ArchiveExpander filters
(stetl/filters/archiveexpander.py) and the FileExtractor filters
(stetl/filters/fileextractor.py).

The Python code is shallowly embedded: the file system a filter touches is
an association list from path strings to file trees, Python exceptions are
an explicit error type threaded through Except, and the abstract methods
that derived classes override (output_path, expand_archive, extract_file)
are function parameters.  String helpers are written on the character list
underlying a String so that every definition evaluates by kernel reduction.
-/

namespace Stetl

/-- Python exceptions that the modelled code can raise or log. -/
inductive PyErr where
  | ioError (msg : String)
  | noSectionError (s : String)
  | noOptionError (s : String)
  | valueError (msg : String)
  | attributeError (msg : String)
  | typeError (msg : String)
  | osError (msg : String)
deriving DecidableEq

/-- Packet payloads seen by these components: Python None, a string, or the
dict with keys name and file_path that ZipFileExtractor consumes. -/
inductive Data where
  | none : Data
  | str (s : String) : Data
  | record (name : String) (file_path : String) : Data
deriving DecidableEq

/-- The unit of data flowing through a chain (stetl.packet.Packet); only the
data field is read or written by the modelled filters. -/
structure Packet where
  data : Data
deriving DecidableEq

/-- A file system node: a regular file, or a directory whose listing is kept
in os.listdir order. -/
inductive FSTree where
  | file : FSTree
  | dir (es : List (String × FSTree)) : FSTree

/-- The file system visible to a component: an association list from path
strings to nodes; a path that is absent holds no file and no directory. -/
abbrev FS := List (String × FSTree)

/-- First value bound to a key in an association list with string keys. -/
def lookupKey {α : Type} : List (String × α) → String → Option α
  | [], _ => Option.none
  | (k, v) :: rest, key => if k = key then some v else lookupKey rest key

/-- Node found at a path, if any. -/
def FS.lookup (fs : FS) (path : String) : Option FSTree :=
  lookupKey fs path

/-- Removal of every binding of a path, modelling os.remove / os.rmdir on a
top level path. -/
def FS.erase : FS → String → FS
  | [], _ => []
  | (p, t) :: rest, path =>
    if p = path then FS.erase rest path else (p, t) :: FS.erase rest path

/-- Truth value of os.path.isfile for a top level path. -/
def FS.isfile (fs : FS) (path : String) : Bool :=
  match FS.lookup fs path with
  | some FSTree.file => true
  | _ => false

/-- Character level model of Python str.split(sep): splitting the empty
string yields one empty group, and separators at the ends yield empty
groups. -/
def pySplit (sep : Char) : List Char → List (List Char)
  | [] => [[]]
  | c :: rest =>
    if c = sep then [] :: pySplit sep rest
    else
      match pySplit sep rest with
      | [] => [[c]]
      | g :: gs => (c :: g) :: gs

/-- Character level model of Python str.strip(): drop whitespace from both
ends. -/
def pyStrip (l : List Char) : List Char :=
  ((l.dropWhile Char.isWhitespace).reverse.dropWhile Char.isWhitespace).reverse

/-- Test used by the filters for a dynamic output path: the Python
expression testing whether the two character sequence percent s occurs in
the configured path. -/
def hasFmtSlot : List Char → Bool
  | [] => false
  | '%' :: 's' :: _ => true
  | _ :: rest => hasFmtSlot rest

/-- Model of the Python percent formatting operator for a format string
holding a single percent s slot: the first slot is replaced by the
argument. -/
def substFmt (arg : List Char) : List Char → List Char
  | [] => []
  | '%' :: 's' :: rest => arg ++ rest
  | c :: rest => c :: substFmt arg rest

/-- Characters kept unchanged by safe_filename: the regular expression
character class of ASCII letters, digits and the dot
(archiveexpander.py line 55 and fileextractor.py line 59); Char.isAlpha and
Char.isDigit are exactly the ASCII ranges of the class. -/
def isSafeChar (c : Char) : Bool :=
  c.isAlpha || c.isDigit || c == '.'

/-- ArchiveExpander.safe_filename and FileExtractor.safe_filename: re.sub
replacing every character outside the class by an underscore. -/
def safe_filename (name : String) : String :=
  String.mk (name.data.map (fun c => if isSafeChar c then c else '_'))

/-- ArchiveExpander.output_path (archiveexpander.py lines 57 to 60) applied
to an actual packet: a dynamic target_dir is formatted with the sanitized
string payload. -/
def ArchiveExpander.output_path_pkt (target_dir : String) (p : Packet) : String :=
  match p.data with
  | Data.str s =>
    if hasFmtSlot target_dir.data then
      String.mk (substFmt (safe_filename s).data target_dir.data)
    else target_dir
  | _ => target_dir

/-- ArchiveExpander.output_path on the argument of after_chain_invoke, which
can be Python None: the attribute access packet.data then raises. -/
def ArchiveExpander.output_path (target_dir : String) :
    Option Packet → Except PyErr String
  | Option.none => Except.error (PyErr.attributeError "NoneType object has no attribute data")
  | some p => Except.ok (ArchiveExpander.output_path_pkt target_dir p)

/-- FileExtractor.output_path (fileextractor.py lines 61 to 62): the base
class ignores the packet and returns the configured file_path, so it is
total even on Python None. -/
def FileExtractor.output_path (file_path : String) (_packet : Option Packet) :
    Except PyErr String :=
  Except.ok file_path

/-- ZipFileExtractor.output_path (fileextractor.py lines 110 to 115): reads
packet.data, so a Python None packet raises; on a dict payload with a
dynamic file_path the sanitized name entry is substituted. -/
def ZipFileExtractor.output_path (file_path : String) :
    Option Packet → Except PyErr String
  | Option.none => Except.error (PyErr.attributeError "NoneType object has no attribute data")
  | some p =>
    Except.ok (match p.data with
      | Data.record nm _ =>
        if hasFmtSlot file_path.data then
          String.mk (substFmt (safe_filename nm).data file_path.data)
        else file_path
      | _ => file_path)

/-- VsiFileExtractor.output_path (fileextractor.py lines 149 to 154): same
shape as the zip variant but keyed on a string payload. -/
def VsiFileExtractor.output_path (file_path : String) :
    Option Packet → Except PyErr String
  | Option.none => Except.error (PyErr.attributeError "NoneType object has no attribute data")
  | some p =>
    Except.ok (match p.data with
      | Data.str s =>
        if hasFmtSlot file_path.data then
          String.mk (substFmt (safe_filename s).data file_path.data)
        else file_path
      | _ => file_path)

/-- FileExtractor.delete_target_file (fileextractor.py lines 64 to 66):
remove the file at the output path if one exists. -/
def FileExtractor.delete_target_file (output_path : Packet → String)
    (p : Packet) (fs : FS) : FS :=
  if FS.isfile fs (output_path p) then FS.erase fs (output_path p) else fs

/-- FileExtractor.invoke (fileextractor.py lines 71 to 86).  The dispatch to
the derived class is the pair of function parameters: output_path as seen
from invoke always receives an actual packet, and extract_file is the
abstract extraction acting on the file system. -/
def FileExtractor.invoke (output_path : Packet → String)
    (extract_file : Packet → FS → FS) (p : Packet) (fs : FS) : Packet × FS :=
  if p.data = Data.none then (p, fs)
  else
    let fs1 := FileExtractor.delete_target_file output_path p fs
    let fs2 := extract_file p fs1
    let out := output_path p
    if FS.isfile fs2 out then ({ p with data := Data.str out }, fs2)
    else ({ p with data := Data.none }, fs2)

/-- FileExtractor.after_chain_invoke (fileextractor.py lines 88 to 96).  The
first component of the result models the Python return value: Option.none is
the bare return statement (Python None), some true is return True.  The
output_path parameter is the possibly packet reading method of the concrete
class, so it can raise on a Python None packet. -/
def FileExtractor.after_chain_invoke (delete_file : Bool)
    (output_path : Option Packet → Except PyErr String)
    (packet : Option Packet) (fs : FS) : Except PyErr (Option Bool × FS) :=
  if delete_file = false then Except.ok (Option.none, fs)
  else
    match output_path packet with
    | Except.error e => Except.error e
    | Except.ok path =>
      Except.ok (some true, if FS.isfile fs path then FS.erase fs path else fs)

/-- Deletion of the files inside a directory listing, following
ArchiveExpander.wipe_dir (archiveexpander.py lines 66 to 75): regular files
are removed in listing order; at the first subdirectory the recursion wipes
it, os.rmdir is attempted on it (raising OSError when the recursive wipe
left it non empty) and the loop returns, keeping the remaining entries. -/
def wipeList : List (String × FSTree) → Except PyErr (List (String × FSTree))
  | [] => Except.ok []
  | (_, FSTree.file) :: rest => wipeList rest
  | (_, FSTree.dir es) :: rest =>
    match wipeList es with
    | Except.error e => Except.error e
    | Except.ok es' =>
      if es'.isEmpty then Except.ok rest
      else Except.error (PyErr.osError "Directory not empty")

/-- ArchiveExpander.wipe_dir applied to a top level path: a path that is not
a directory is left alone, otherwise its listing is processed by wipeList
and the directory itself stays in place. -/
def wipeDirAt (fs : FS) (path : String) : Except PyErr FS :=
  match FS.lookup fs path with
  | some (FSTree.dir es) =>
    match wipeList es with
    | Except.error e => Except.error e
    | Except.ok es' => Except.ok ((path, FSTree.dir es') :: FS.erase fs path)
  | _ => Except.ok fs

/-- ArchiveExpander.remove_file (archiveexpander.py lines 62 to 64), called
on the stored input_archive_file, which is a payload value: Python 2
os.path.isfile raises TypeError on None and on a dict. -/
def ArchiveExpander.remove_file (file_path : Data) (fs : FS) : Except PyErr FS :=
  match file_path with
  | Data.str s => Except.ok (if FS.isfile fs s then FS.erase fs s else fs)
  | _ => Except.error (PyErr.typeError "coercing to Unicode: need string")

/-- Mutable state of an ArchiveExpander instance beside its configuration:
the file system it acts on and the input_archive_file attribute set by the
constructor to Python None and by invoke to the packet payload. -/
structure AEState where
  fs : FS
  input_archive_file : Data

/-- ArchiveExpander.invoke (archiveexpander.py lines 80 to 108): empty data
passes through; otherwise the formatted output directory is wiped, the
archive is expanded into it by the derived class, and the packet leaves
with the directory path as data, or with None when os.listdir finds the
directory empty.  os.listdir on a missing path or a plain file raises. -/
def ArchiveExpander.invoke (target_dir : String)
    (expand_archive : Data → String → FS → FS) (p : Packet) (st : AEState) :
    Except PyErr (Packet × AEState) :=
  if p.data = Data.none then Except.ok (p, st)
  else
    let path := ArchiveExpander.output_path_pkt target_dir p
    match wipeDirAt st.fs path with
    | Except.error e => Except.error e
    | Except.ok fs1 =>
      let fs2 := expand_archive p.data path fs1
      match FS.lookup fs2 path with
      | some (FSTree.dir es) =>
        if es.isEmpty then
          Except.ok ({ p with data := Data.none },
                     { fs := fs2, input_archive_file := p.data })
        else
          Except.ok ({ p with data := Data.str path },
                     { fs := fs2, input_archive_file := p.data })
      | some FSTree.file => Except.error (PyErr.osError "Not a directory")
      | Option.none => Except.error (PyErr.osError "No such file or directory")

/-- ArchiveExpander.after_chain_invoke (archiveexpander.py lines 110 to
117): optionally remove the stored input archive, optionally wipe the
output directory computed from the last packet, then return True. -/
def ArchiveExpander.after_chain_invoke (remove_input_file clear_target_dir : Bool)
    (target_dir : String) (st : AEState) (packet : Option Packet) :
    Except PyErr (Bool × FS) :=
  match (if remove_input_file then ArchiveExpander.remove_file st.input_archive_file st.fs
         else Except.ok st.fs) with
  | Except.error e => Except.error e
  | Except.ok fs1 =>
    if clear_target_dir then
      match ArchiveExpander.output_path target_dir packet with
      | Except.error e => Except.error e
      | Except.ok path =>
        match wipeDirAt fs1 path with
        | Except.error e => Except.error e
        | Except.ok fs2 => Except.ok (true, fs2)
    else Except.ok (true, fs1)

/-- Environment of one VsiFileExtractor.extract_file call (fileextractor.py
lines 156 to 188): the handle VSIFOpenL produced (Option.none models a falsy
result) and the outcome of the with block in the try suite, that is the
output file open, the VSIF seek, tell and read calls and the writes,
summarized by the exception it raises if any. -/
structure VsiEnv where
  vsiHandle : Option Nat
  bodyOutcome : Except PyErr Unit

/-- Observable side effects of VsiFileExtractor.extract_file. -/
inductive VsiEvent where
  | loggedError (msg : String)
  | closedVsi (h : Nat)
deriving DecidableEq

/-- VsiFileExtractor.extract_file: the try suite runs, the except clause
logs and re-raises the same exception, and the finally clause closes the
handle whenever one was opened. -/
def VsiFileExtractor.extract_file (env : VsiEnv) :
    Except PyErr Unit × List VsiEvent :=
  let afterExcept : Except PyErr Unit × List VsiEvent :=
    match env.bodyOutcome with
    | Except.ok _ => (Except.ok (), [])
    | Except.error e => (Except.error e, [VsiEvent.loggedError "Cannot extract"])
  match env.vsiHandle with
  | some h => (afterExcept.1, afterExcept.2 ++ [VsiEvent.closedVsi h])
  | Option.none => afterExcept

/-- Parsed configuration store: sections mapping option names to raw string
values, the shape ConfigParser hands to the ETL driver. -/
abbrev Config := List (String × List (String × String))

/-- Python 2 ConfigParser.get from the standard library: a missing section
raises NoSectionError and a missing option raises NoOptionError; the value
is returned as a string otherwise. -/
def configGet (cfg : Config) (sect : String) (key : String) : Except PyErr String :=
  match lookupKey cfg sect with
  | Option.none => Except.error (PyErr.noSectionError sect)
  | some opts =>
    match lookupKey opts key with
    | Option.none => Except.error (PyErr.noOptionError key)
    | some v => Except.ok v

/-- Modelled from the spec: the Chain class is code of this repository that
is not under src, so what ETL.run does with a chain is recorded as a trace
of events, constructing and assembling a Chain from a chain string and then
running it to completion. -/
inductive ChainEvent where
  | assemble (name : String)
  | run (name : String)
deriving DecidableEq

/-- Trace of the loop body of ETL.run (etl.py lines 60 to 67): the chains
value splits on commas and each entry is stripped, assembled and run in
listed order. -/
def chainTrace (chains_str : String) : List ChainEvent :=
  (pySplit ',' chains_str.data).flatMap
    (fun g => [ChainEvent.assemble (String.mk (pyStrip g)),
               ChainEvent.run (String.mk (pyStrip g))])

/-- ETL.__init__ (etl.py lines 18 to 47): the whole try suite that reads and
parses the configuration file is summarized by its outcome; the bare except
clause only logs a warning, so construction always completes, with the
empty store when reading or parsing failed. -/
def ETL_init (attempt : Except PyErr Config) : Config :=
  match attempt with
  | Except.ok c => c
  | Except.error _ => []

/-- ETL.run (etl.py lines 49 to 71): the chains value is read with
ConfigParser.get, whose lookup errors propagate; a falsy (empty) value
raises ValueError; otherwise every comma separated entry is stripped and a
Chain is built, assembled and run for it, in order. -/
def ETL_run (cfg : Config) : Except PyErr (List ChainEvent) :=
  match configGet cfg "etl" "chains" with
  | Except.error e => Except.error e
  | Except.ok chains_str =>
    if chains_str = "" then
      Except.error (PyErr.valueError "ETL chain entry not defined in section [etl]")
    else
      Except.ok (chainTrace chains_str)

/-- Truth value of the test whether a run outcome is a raised ValueError. -/
def raisesValueError : Except PyErr (List ChainEvent) → Bool
  | Except.error (PyErr.valueError _) => true
  | _ => false

/-! Helper lemmas about the file system model. -/

theorem FS.lookup_erase (fs : FS) (path : String) :
    FS.lookup (FS.erase fs path) path = Option.none := by
  induction fs with
  | nil => rfl
  | cons hd tl ih =>
    obtain ⟨p, t⟩ := hd
    by_cases h : p = path
    · simp [FS.erase, h, ih]
    · simpa [FS.erase, FS.lookup, lookupKey, h] using ih

theorem FS.isfile_erase (fs : FS) (path : String) :
    FS.isfile (FS.erase fs path) path = false := by
  simp [FS.isfile, FS.lookup_erase]

/-! Claim theorems. -/

/-- C1 (corrected), counterexample: a configuration file whose read fails
does not make ETL.__init__ raise; the driver is constructed with the empty
configuration store. -/
theorem etl_init_error_counterexample :
    ETL_init (Except.error (PyErr.ioError "Cannot read config file")) = ([] : Config) := rfl

/-- C1 (corrected), amended claim: for every configuration file that cannot
be read or parsed, ETL.__init__ catches the error, logs a warning only, and
continues with an empty configuration store; a successful parse is kept as
the store. -/
theorem etl_init_continues_on_config_error (e : PyErr) (c : Config) :
    ETL_init (Except.error e) = ([] : Config) ∧ ETL_init (Except.ok c) = c :=
  ⟨rfl, rfl⟩

/-- C3 (confirmed): a packet whose data field is Python None is returned
unchanged by ArchiveExpander.invoke and FileExtractor.invoke, with the file
system and the expander state untouched. -/
theorem invoke_passes_skip_packet_through
    (target_dir : String) (expand_archive : Data → String → FS → FS)
    (output_path : Packet → String) (extract_file : Packet → FS → FS)
    (p : Packet) (st : AEState) (fs : FS) (h : p.data = Data.none) :
    ArchiveExpander.invoke target_dir expand_archive p st = Except.ok (p, st)
    ∧ FileExtractor.invoke output_path extract_file p fs = (p, fs) := by
  constructor <;> simp [ArchiveExpander.invoke, FileExtractor.invoke, h]

/-- Witness for C3 at a concrete empty packet. -/
theorem invoke_passes_skip_packet_through_witness :
    (Packet.mk Data.none).data = Data.none
    ∧ ArchiveExpander.invoke "temp_dir" (fun _ _ fs => fs) (Packet.mk Data.none)
        (AEState.mk [] Data.none)
      = Except.ok (Packet.mk Data.none, AEState.mk [] Data.none)
    ∧ FileExtractor.invoke (fun _ => "out.gml") (fun _ fs => fs) (Packet.mk Data.none) []
      = (Packet.mk Data.none, []) := by
  have h := invoke_passes_skip_packet_through "temp_dir" (fun _ _ fs => fs)
    (fun _ => "out.gml") (fun _ fs => fs) (Packet.mk Data.none)
    (AEState.mk [] Data.none) [] rfl
  exact ⟨rfl, h.1, h.2⟩

/-- C5 (confirmed): on a packet with non empty data, FileExtractor.invoke
first deletes any pre-existing file at the configured output path (after the
delete step no file is at that path), then lets the derived class extract,
and hands back the packet with data equal to the output path exactly when a
file exists there afterwards, and with data None otherwise. -/
theorem fileextractor_invoke_postcondition
    (output_path : Packet → String) (extract_file : Packet → FS → FS)
    (p : Packet) (fs : FS) (h : p.data ≠ Data.none) :
    FS.isfile (FileExtractor.delete_target_file output_path p fs) (output_path p) = false
    ∧ (FileExtractor.invoke output_path extract_file p fs).2
        = extract_file p (FileExtractor.delete_target_file output_path p fs)
    ∧ (FileExtractor.invoke output_path extract_file p fs).1
        = { p with data :=
              if (FS.isfile (extract_file p (FileExtractor.delete_target_file output_path p fs))
                   (output_path p))
              then Data.str (output_path p) else Data.none } := by
  refine ⟨?_, ?_, ?_⟩
  · unfold FileExtractor.delete_target_file
    cases hf : FS.isfile fs (output_path p) with
    | true => simp [hf, FS.isfile_erase]
    | false => simp [hf]
  · unfold FileExtractor.invoke
    simp only [if_neg h]
    cases hf : FS.isfile (extract_file p (FileExtractor.delete_target_file output_path p fs))
        (output_path p) <;> simp [hf]
  · unfold FileExtractor.invoke
    simp only [if_neg h]
    cases hf : FS.isfile (extract_file p (FileExtractor.delete_target_file output_path p fs))
        (output_path p) <;> simp [hf]

/-- Witness for C5: a zip entry extracted over a stale output file. -/
theorem fileextractor_invoke_postcondition_witness :
    (Packet.mk (Data.str "input.zip")).data ≠ Data.none
    ∧ FS.isfile (FileExtractor.delete_target_file (fun _ => "out.gml")
          (Packet.mk (Data.str "input.zip")) [("out.gml", FSTree.file)]) "out.gml" = false
    ∧ (FileExtractor.invoke (fun _ => "out.gml")
          (fun _ fs => ("out.gml", FSTree.file) :: fs)
          (Packet.mk (Data.str "input.zip")) [("out.gml", FSTree.file)]).1
        = Packet.mk (Data.str "out.gml") := by
  have h := fileextractor_invoke_postcondition (fun _ => "out.gml")
    (fun _ fs => ("out.gml", FSTree.file) :: fs)
    (Packet.mk (Data.str "input.zip")) [("out.gml", FSTree.file)] (by decide)
  exact ⟨by decide, h.1, by rw [h.2.2]; decide⟩

/-- C4 (code bug): a ZipFileExtractor with delete_file set and a dynamic
output path, handed the Python None sentinel packet by the cleanup phase,
raises AttributeError out of after_chain_invoke instead of completing; the
source comments on exactly this in fileextractor.py lines 92 to 93. -/
theorem zip_after_chain_invoke_sentinel_raises :
    FileExtractor.after_chain_invoke true (ZipFileExtractor.output_path "gebied_%s.gml")
        Option.none []
      = Except.error (PyErr.attributeError "NoneType object has no attribute data") := rfl

/-- C7 (confirmed): VsiFileExtractor.extract_file hands every exception of
the extraction body to its caller unchanged, and the finally clause closes
the VSI handle whenever one was opened, failing or not. -/
theorem vsi_extract_file_propagates_and_closes (env : VsiEnv) :
    (VsiFileExtractor.extract_file env).1 = env.bodyOutcome
    ∧ (∀ hdl, env.vsiHandle = some hdl →
        VsiEvent.closedVsi hdl ∈ (VsiFileExtractor.extract_file env).2) := by
  obtain ⟨hv, hb⟩ := env
  constructor
  · cases hb with
    | ok u => cases u; cases hv <;> rfl
    | error e => cases hv <;> rfl
  · intro hdl hh
    cases hv with
    | none => cases hh
    | some k =>
      cases hh
      cases hb <;> simp [VsiFileExtractor.extract_file]

/-- Witness for C7: a failing extraction with an open handle propagates the
error and still closes the handle. -/
theorem vsi_extract_file_propagates_and_closes_witness :
    (VsiFileExtractor.extract_file (VsiEnv.mk (some 7) (Except.error (PyErr.ioError "read failed")))).1
      = Except.error (PyErr.ioError "read failed")
    ∧ VsiEvent.closedVsi 7 ∈
        (VsiFileExtractor.extract_file (VsiEnv.mk (some 7) (Except.error (PyErr.ioError "read failed")))).2 := by
  have h := vsi_extract_file_propagates_and_closes
    (VsiEnv.mk (some 7) (Except.error (PyErr.ioError "read failed")))
  exact ⟨h.1, h.2 7 rfl⟩

/-- C9 (confirmed): safe_filename keeps the length of its input, emits only
ASCII letters, digits, dots and underscores, and is idempotent. -/
theorem safe_filename_sanitization (s : String) :
    (safe_filename s).length = s.length
    ∧ ((safe_filename s).data.all
        (fun c => c.isAlpha || c.isDigit || c == '.' || c == '_')) = true
    ∧ safe_filename (safe_filename s) = safe_filename s := by
  refine ⟨?_, ?_, ?_⟩
  · show (s.data.map (fun c => if isSafeChar c then c else '_')).length = s.data.length
    exact List.length_map _ _
  · simp only [safe_filename, List.all_eq_true]
    intro c hc
    simp only [List.mem_map] at hc
    obtain ⟨a, _, rfl⟩ := hc
    by_cases h : isSafeChar a = true
    · simp only [h, if_true]
      simp only [isSafeChar, Bool.or_eq_true] at h ⊢
      tauto
    · have h2 : ('_'.isAlpha || '_'.isDigit || '_' == '.' || '_' == '_') = true := by decide
      simp [h, h2]
  · simp only [safe_filename]
    congr 1
    rw [List.map_map]
    apply List.map_congr_left
    intro a _
    by_cases h : isSafeChar a = true
    · simp [Function.comp, h]
    · have h2 : isSafeChar '_' = false := by decide
      simp [Function.comp, h, h2]

/-- C2 (corrected), counterexample: FileExtractor.after_chain_invoke with
delete_file unset executes the bare return statement and hands back Python
None, not a boolean. -/
theorem fileextractor_after_chain_invoke_returns_none :
    FileExtractor.after_chain_invoke false (FileExtractor.output_path "out.gml")
        (some (Packet.mk (Data.str "input.zip"))) []
      = Except.ok (Option.none, []) := rfl

/-- C2 (corrected), amended claim: ArchiveExpander.after_chain_invoke
returns True whenever it completes without an exception, while
FileExtractor.after_chain_invoke returns True when delete_file is set and
its output path computation succeeds, and returns Python None when
delete_file is unset. -/
theorem after_chain_invoke_cleanup_results
    (remove_input_file clear_target_dir : Bool) (target_dir : String)
    (st : AEState) (packet : Option Packet)
    (output_path : Option Packet → Except PyErr String) (fs : FS) :
    (∀ b fs2, ArchiveExpander.after_chain_invoke remove_input_file clear_target_dir
        target_dir st packet = Except.ok (b, fs2) → b = true)
    ∧ FileExtractor.after_chain_invoke false output_path packet fs
        = Except.ok (Option.none, fs)
    ∧ (∀ path, output_path packet = Except.ok path →
        FileExtractor.after_chain_invoke true output_path packet fs
          = Except.ok (some true, if FS.isfile fs path then FS.erase fs path else fs)) := by
  refine ⟨?_, ?_, ?_⟩
  · intro b fs2 hq
    unfold ArchiveExpander.after_chain_invoke at hq
    split at hq
    · exact absurd hq (by simp)
    · split at hq
      · split at hq
        · exact absurd hq (by simp)
        · split at hq
          · exact absurd hq (by simp)
          · simp at hq
            exact hq.1
      · simp at hq
        exact hq.1
  · rfl
  · intro path hp
    simp [FileExtractor.after_chain_invoke, hp]

/-- Witness for C2 at concrete extractors over an empty file system. -/
theorem after_chain_invoke_cleanup_results_witness :
    FileExtractor.after_chain_invoke false (FileExtractor.output_path "out.gml") Option.none []
      = Except.ok (Option.none, [])
    ∧ FileExtractor.after_chain_invoke true (FileExtractor.output_path "out.gml") Option.none []
      = Except.ok (some true, []) := by
  have h := after_chain_invoke_cleanup_results false true "temp_dir"
    (AEState.mk [] Data.none) Option.none (FileExtractor.output_path "out.gml") []
  exact ⟨h.2.1, h.2.2 "out.gml" rfl⟩

/-- C6 (confirmed): on a packet with non empty data, ArchiveExpander.invoke
wipes the formatted output directory, lets the derived class expand the
archive named by the packet data into it, and returns the packet with data
set to the formatted directory path when the directory is non empty
afterwards and with data None when it is empty; the stored
input_archive_file becomes the packet data. -/
theorem archiveexpander_invoke_postcondition
    (target_dir : String) (expand_archive : Data → String → FS → FS)
    (p : Packet) (st : AEState) (fs1 : FS) (es : List (String × FSTree))
    (hd : p.data ≠ Data.none)
    (hw : wipeDirAt st.fs (ArchiveExpander.output_path_pkt target_dir p) = Except.ok fs1)
    (hl : FS.lookup (expand_archive p.data (ArchiveExpander.output_path_pkt target_dir p) fs1)
            (ArchiveExpander.output_path_pkt target_dir p)
          = some (FSTree.dir es)) :
    ArchiveExpander.invoke target_dir expand_archive p st
      = Except.ok
          ({ p with data := if es.isEmpty then Data.none
                            else Data.str (ArchiveExpander.output_path_pkt target_dir p) },
           AEState.mk (expand_archive p.data (ArchiveExpander.output_path_pkt target_dir p) fs1)
             p.data) := by
  simp only [ArchiveExpander.invoke, if_neg hd, hw, hl]
  cases hE : es.isEmpty <;> simp [hE]

/-- Witness for C6: expanding a zip over a stale directory yields the
directory path. -/
theorem archiveexpander_invoke_postcondition_witness :
    wipeDirAt [("temp_dir", FSTree.dir [("old.gml", FSTree.file)])] "temp_dir"
      = Except.ok [("temp_dir", FSTree.dir [])]
    ∧ ArchiveExpander.invoke "temp_dir"
        (fun _ _ _ => [("temp_dir", FSTree.dir [("part1.xml", FSTree.file)])])
        (Packet.mk (Data.str "input.zip"))
        (AEState.mk [("temp_dir", FSTree.dir [("old.gml", FSTree.file)])] Data.none)
      = Except.ok (Packet.mk (Data.str "temp_dir"),
          AEState.mk [("temp_dir", FSTree.dir [("part1.xml", FSTree.file)])]
            (Data.str "input.zip")) := by
  have hw : wipeDirAt [("temp_dir", FSTree.dir [("old.gml", FSTree.file)])] "temp_dir"
      = Except.ok [("temp_dir", FSTree.dir [])] := by
    simp [wipeDirAt, FS.lookup, lookupKey, wipeList, FS.erase]
  have h := archiveexpander_invoke_postcondition "temp_dir"
    (fun _ _ _ => [("temp_dir", FSTree.dir [("part1.xml", FSTree.file)])])
    (Packet.mk (Data.str "input.zip"))
    (AEState.mk [("temp_dir", FSTree.dir [("old.gml", FSTree.file)])] Data.none)
    [("temp_dir", FSTree.dir [])] [("part1.xml", FSTree.file)]
    (by decide) hw rfl
  exact ⟨hw, by rw [h]; rfl⟩

/-- C8 (corrected), counterexample: with the chains entry absent (no etl
section at all), ETL.run raises the ConfigParser lookup error
NoSectionError, not the ValueError the claim names. -/
theorem etl_run_absent_chains_counterexample :
    ETL_run [] = Except.error (PyErr.noSectionError "etl")
    ∧ raisesValueError (ETL_run []) = false := ⟨rfl, rfl⟩

/-- C8 (corrected), amended claim: ETL.run reads the chains value of section
etl with ConfigParser.get, whose lookup errors (NoSectionError,
NoOptionError) propagate when section or option are absent; a present but
empty value raises ValueError; otherwise every comma separated entry is
stripped and a Chain is constructed, assembled and run for it, in listed
order, each run completing before the next starts. -/
theorem etl_run_spec (cfg : Config) :
    (∀ e, configGet cfg "etl" "chains" = Except.error e → ETL_run cfg = Except.error e)
    ∧ (configGet cfg "etl" "chains" = Except.ok "" →
        ETL_run cfg = Except.error (PyErr.valueError "ETL chain entry not defined in section [etl]"))
    ∧ (∀ s, configGet cfg "etl" "chains" = Except.ok s → s ≠ "" →
        ETL_run cfg = Except.ok (chainTrace s)) := by
  refine ⟨?_, ?_, ?_⟩
  · intro e he
    simp [ETL_run, he]
  · intro he
    simp [ETL_run, he]
  · intro s hs hne
    simp [ETL_run, hs, hne]

/-- Witness for C8: two configured chains are assembled and run in order. -/
theorem etl_run_spec_witness :
    ETL_run [("etl", [("chains", "input_chain, output_chain")])]
      = Except.ok [ChainEvent.assemble "input_chain", ChainEvent.run "input_chain",
                   ChainEvent.assemble "output_chain", ChainEvent.run "output_chain"] := by
  have h := (etl_run_spec [("etl", [("chains", "input_chain, output_chain")])]).2.2
    "input_chain, output_chain" rfl (by decide)
  rw [h]
  rfl

/-- C10 (corrected), counterexample: wiping a directory whose listing is a
regular file followed by a subdirectory removes every regular file entry
even though the listing contains a subdirectory, refuting the only when
part of the claim. -/
theorem wipe_dir_counterexample :
    FS.lookup [("temp_dir", FSTree.dir [("a.txt", FSTree.file), ("sub", FSTree.dir [])])]
        "temp_dir"
      = some (FSTree.dir [("a.txt", FSTree.file), ("sub", FSTree.dir [])])
    ∧ wipeDirAt [("temp_dir", FSTree.dir [("a.txt", FSTree.file), ("sub", FSTree.dir [])])]
        "temp_dir"
      = Except.ok [("temp_dir", FSTree.dir [])] := by
  constructor
  · rfl
  · simp [wipeDirAt, FS.lookup, lookupKey, wipeList, FS.erase]

/-- C10 (corrected), amended claim: applied to a directory, wipe_dir removes
regular file entries in listing order; with no subdirectory in the listing
every regular file entry is removed; at the first subdirectory it
recursively wipes it and then attempts os.rmdir on it, returning
immediately with every later entry left in place when the recursive wipe
emptied it and raising OSError otherwise; applied to a path that is not a
directory it does nothing. -/
theorem wipe_dir_spec (fs : FS) (path : String)
    (es before rest ds : List (String × FSTree)) (nm : String) :
    ((∀ t, FS.lookup fs path ≠ some (FSTree.dir t)) → wipeDirAt fs path = Except.ok fs)
    ∧ (FS.lookup fs path = some (FSTree.dir es) →
        wipeDirAt fs path
          = (match wipeList es with
             | Except.error e => Except.error e
             | Except.ok es' => Except.ok ((path, FSTree.dir es') :: FS.erase fs path)))
    ∧ ((∀ e ∈ es, e.2 = FSTree.file) → wipeList es = Except.ok [])
    ∧ ((∀ e ∈ before, e.2 = FSTree.file) →
        wipeList (before ++ (nm, FSTree.dir ds) :: rest)
          = (match wipeList ds with
             | Except.error e => Except.error e
             | Except.ok ds' =>
               if ds'.isEmpty then Except.ok rest
               else Except.error (PyErr.osError "Directory not empty"))) := by
  refine ⟨?_, ?_, ?_, ?_⟩
  · intro hnd
    rcases hL : FS.lookup fs path with _ | t
    · simp [wipeDirAt, hL]
    · cases t with
      | file => simp [wipeDirAt, hL]
      | dir u => exact absurd hL (hnd u)
  · intro hL
    simp only [wipeDirAt, hL]
  · intro hall
    induction es with
    | nil => simp [wipeList]
    | cons hd tl ih =>
      obtain ⟨n, t⟩ := hd
      have ht : t = FSTree.file := hall (n, t) (List.mem_cons_self _ _)
      subst ht
      have step : wipeList ((n, FSTree.file) :: tl) = wipeList tl := by
        simp [wipeList]
      rw [step]
      exact ih (fun e he => hall e (List.mem_cons_of_mem _ he))
  · intro hall
    induction before with
    | nil =>
      simp only [List.nil_append]
      simp [wipeList]
    | cons hd tl ih =>
      obtain ⟨n, t⟩ := hd
      have ht : t = FSTree.file := hall (n, t) (List.mem_cons_self _ _)
      subst ht
      have step : wipeList (((n, FSTree.file) :: tl) ++ (nm, FSTree.dir ds) :: rest)
          = wipeList (tl ++ (nm, FSTree.dir ds) :: rest) := by
        simp [wipeList]
      rw [step]
      exact ih (fun e he => hall e (List.mem_cons_of_mem _ he))

/-- Witness for C10: an empty path does nothing, a file only listing is
fully removed, and a first subdirectory that stays non empty after its own
wipe makes os.rmdir raise. -/
theorem wipe_dir_spec_witness :
    wipeDirAt [] "temp_dir" = Except.ok []
    ∧ wipeList [("a.txt", FSTree.file)] = Except.ok []
    ∧ wipeList ([("a.txt", FSTree.file)]
        ++ ("nested", FSTree.dir [("d2", FSTree.dir []), ("f.txt", FSTree.file)])
          :: [("z.txt", FSTree.file)])
      = Except.error (PyErr.osError "Directory not empty") := by
  have h := wipe_dir_spec [] "temp_dir" [("a.txt", FSTree.file)] [("a.txt", FSTree.file)]
    [("z.txt", FSTree.file)] [("d2", FSTree.dir []), ("f.txt", FSTree.file)] "nested"
  refine ⟨h.1 (by simp [FS.lookup, lookupKey]), h.2.2.1 (by simp), ?_⟩
  rw [h.2.2.2 (by simp)]
  simp [wipeList]

end Stetl
